import Mathlib

/-!
Verification development for the LegaLese backend (`app.py`).

The Python source is shallowly embedded below.  External collaborators
(the Vision OCR client, the docx paragraph parser, the HTTP POST to the
text-generation service, and the identity provider's account creation)
are modelled as fields of an explicit `Env` record; everything the
repository itself computes (media-type dispatch, prompt construction,
code-fence cleaning, JSON parsing of responses, handler control flow)
is embedded as executable Lean functions.

Bytes are modelled as `List Nat` (each entry a byte value), strings as
Lean `String`, and Python/JSON values as the inductive `Json` below.
-/

/-- The characters Python's `str.strip()` removes (ASCII whitespace). -/
def isPyWs (c : Char) : Bool :=
  c = ' ' || c = '\t' || c = '\n' || c = '\r' || c = '\x0b' || c = '\x0c'

/-- Model of Python `str.strip()` on the character list: drop ASCII
whitespace from both ends. -/
def stripList (l : List Char) : List Char :=
  ((l.dropWhile isPyWs).reverse.dropWhile isPyWs).reverse

/-- Model of Python `str.strip()`. -/
def pyStrip (s : String) : String :=
  ⟨stripList s.toList⟩

/-- Worker for Python `str.replace`: replace each left-to-right
non-overlapping occurrence of `pat` by `rep`.  `fuel` bounds the
recursion; any fuel of at least the input length is enough because each
step consumes at least one character (for the empty pattern, which the
repository never uses, this worker is the identity). -/
def replList (pat rep : List Char) : Nat → List Char → List Char
  | 0, s => s
  | fuel + 1, s =>
    if !pat.isEmpty && pat.isPrefixOf s then
      rep ++ replList pat rep fuel (s.drop pat.length)
    else
      match s with
      | [] => []
      | c :: t => c :: replList pat rep fuel t

/-- Model of Python `str.replace(pat, rep)` (all occurrences,
left-to-right, non-overlapping). -/
def pyReplace (s pat rep : String) : String :=
  ⟨replList pat.toList rep.toList (s.toList.length + 1) s.toList⟩

/-- Does `pat` occur as a contiguous run inside `s`?  (Model of
Python's `in` operator on strings.) -/
def listContains (pat : List Char) : List Char → Bool
  | [] => pat.isEmpty
  | c :: t => pat.isPrefixOf (c :: t) || listContains pat t

/-- `strContains s pat`: Python `pat in s` for strings. -/
def strContains (s pat : String) : Bool :=
  listContains pat.toList s.toList

/-- `strStartsWith s pre`: Python `s.startswith(pre)`. -/
def strStartsWith (s pre : String) : Bool :=
  pre.toList.isPrefixOf s.toList

/-- UTF-8 decoding of a byte list, fueled.  Rejects truncated
sequences, stray continuation bytes, overlong encodings, surrogates and
code points above U+10FFFF — the byte sequences Python's
`bytes.decode('utf-8')` rejects with `UnicodeDecodeError`. -/
def utf8DecodeAux : Nat → List Nat → Option (List Char)
  | 0, [] => some []
  | 0, _ :: _ => none
  | _ + 1, [] => some []
  | fuel + 1, b :: rest =>
    if b < 0x80 then
      (utf8DecodeAux fuel rest).map (Char.ofNat b :: ·)
    else if b < 0xC2 then
      none
    else if b < 0xE0 then
      match rest with
      | b1 :: rest1 =>
        if 0x80 ≤ b1 && b1 < 0xC0 then
          (utf8DecodeAux fuel rest1).map
            (Char.ofNat ((b - 0xC0) * 0x40 + (b1 - 0x80)) :: ·)
        else none
      | _ => none
    else if b < 0xF0 then
      match rest with
      | b1 :: b2 :: rest2 =>
        let lo1 := if b = 0xE0 then 0xA0 else 0x80
        let hi1 := if b = 0xED then 0xA0 else 0xC0
        if lo1 ≤ b1 && b1 < hi1 && 0x80 ≤ b2 && b2 < 0xC0 then
          (utf8DecodeAux fuel rest2).map
            (Char.ofNat ((b - 0xE0) * 0x1000 + (b1 - 0x80) * 0x40 + (b2 - 0x80)) :: ·)
        else none
      | _ => none
    else if b < 0xF5 then
      match rest with
      | b1 :: b2 :: b3 :: rest3 =>
        let lo1 := if b = 0xF0 then 0x90 else 0x80
        let hi1 := if b = 0xF4 then 0x90 else 0xC0
        if lo1 ≤ b1 && b1 < hi1 && 0x80 ≤ b2 && b2 < 0xC0 && 0x80 ≤ b3 && b3 < 0xC0 then
          (utf8DecodeAux fuel rest3).map
            (Char.ofNat ((b - 0xF0) * 0x40000 + (b1 - 0x80) * 0x1000 +
              (b2 - 0x80) * 0x40 + (b3 - 0x80)) :: ·)
        else none
      | _ => none
    else none

/-- Model of Python `bytes.decode('utf-8')`: `none` models the raised
`UnicodeDecodeError`. -/
def decodeUtf8 (bs : List Nat) : Option String :=
  (utf8DecodeAux (bs.length + 1) bs).map fun cs => ⟨cs⟩

/-- JSON/Python values exchanged with the external services.  Numbers
are modelled as integers (no claim of the specification involves
fractional JSON numbers). -/
inductive Json where
  | null
  | bool (b : Bool)
  | num (n : Int)
  | str (s : String)
  | arr (xs : List Json)
  | obj (kvs : List (String × Json))

/-- Python truthiness of a JSON value (`bool(x)`): `None`, `False`,
`0`, `""`, `[]` and `{}` are falsy. -/
def Json.truthy : Json → Bool
  | .null => false
  | .bool b => b
  | .num n => n != 0
  | .str s => !s.isEmpty
  | .arr xs => !xs.isEmpty
  | .obj kvs => !kvs.isEmpty

/-- `dict.get(k)`: `none` models Python `None` for a missing key or a
non-dict receiver.  Later duplicate keys shadow earlier ones, as in a
Python dict built by `json.loads`. -/
def Json.get : Json → String → Option Json
  | .obj kvs, k => (kvs.reverse.find? (fun kv => kv.1 == k)).map (·.2)
  | _, _ => none

/-- List indexing `x[i]` restricted to JSON arrays; `none` models the
raised `IndexError`/`TypeError` on anything else. -/
def Json.idx : Json → Nat → Option Json
  | .arr xs, i => xs.get? i
  | _, _ => none

/-- Extract a Lean `String` from a JSON string value. -/
def Json.asStr : Json → Option String
  | .str s => some s
  | _ => none

/-- JSON whitespace skipped between tokens by `json.loads`. -/
def skipWs (l : List Char) : List Char :=
  l.dropWhile fun c => c = ' ' || c = '\t' || c = '\n' || c = '\r'

/-- Value of one hexadecimal digit. -/
def hexDigitVal (c : Char) : Option Nat :=
  if c.isDigit then some (c.toNat - 48)
  else if 'a' ≤ c && c ≤ 'f' then some (c.toNat - 87)
  else if 'A' ≤ c && c ≤ 'F' then some (c.toNat - 55)
  else none

/-- Four hexadecimal digits of a `\u` escape. -/
def parseHex4 : List Char → Option (Nat × List Char)
  | a :: b :: c :: d :: rest =>
    match hexDigitVal a, hexDigitVal b, hexDigitVal c, hexDigitVal d with
    | some x, some y, some z, some w => some (((x * 16 + y) * 16 + z) * 16 + w, rest)
    | _, _, _, _ => none
  | _ => none

/-- Body of a JSON string literal, after the opening quote: returns the
decoded characters and the input after the closing quote.  Raw control
characters are rejected, as by `json.loads` in its default strict
mode. -/
def parseJsonString : Nat → List Char → Option (List Char × List Char)
  | 0, _ => none
  | _ + 1, [] => none
  | fuel + 1, c :: t =>
    if c = '"' then some ([], t)
    else if c = '\\' then
      match t with
      | [] => none
      | e :: t2 =>
        if e = '"' then (parseJsonString fuel t2).map fun p => ('"' :: p.1, p.2)
        else if e = '\\' then (parseJsonString fuel t2).map fun p => ('\\' :: p.1, p.2)
        else if e = '/' then (parseJsonString fuel t2).map fun p => ('/' :: p.1, p.2)
        else if e = 'b' then (parseJsonString fuel t2).map fun p => ('\x08' :: p.1, p.2)
        else if e = 'f' then (parseJsonString fuel t2).map fun p => ('\x0c' :: p.1, p.2)
        else if e = 'n' then (parseJsonString fuel t2).map fun p => ('\n' :: p.1, p.2)
        else if e = 'r' then (parseJsonString fuel t2).map fun p => ('\r' :: p.1, p.2)
        else if e = 't' then (parseJsonString fuel t2).map fun p => ('\t' :: p.1, p.2)
        else if e = 'u' then
          match parseHex4 t2 with
          | some (n, t3) => (parseJsonString fuel t3).map fun p => (Char.ofNat n :: p.1, p.2)
          | none => none
        else none
    else if c.toNat < 32 then none
    else (parseJsonString fuel t).map fun p => (c :: p.1, p.2)

/-- Digit characters to the natural number they denote. -/
def digitsToNat (ds : List Char) : Nat :=
  ds.foldl (fun a c => a * 10 + (c.toNat - 48)) 0

/-- Unsigned part of a JSON number.  Fractional and exponent forms are
outside this model (no claim involves them), and leading zeros are
rejected as in the JSON grammar. -/
def parseJsonNumCore (l : List Char) : Option (Nat × List Char) :=
  match l.span Char.isDigit with
  | (ds, rest) =>
    if ds.isEmpty then none
    else if 1 < ds.length && ds.head? == some '0' then none
    else
      match rest with
      | c :: _ =>
        if c = '.' || c = 'e' || c = 'E' then none else some (digitsToNat ds, rest)
      | [] => some (digitsToNat ds, rest)

/-- A JSON number token, with optional leading minus sign. -/
def parseJsonNum : List Char → Option (Json × List Char)
  | '-' :: l1 => (parseJsonNumCore l1).map fun p => (Json.num (-(p.1 : Int)), p.2)
  | l => (parseJsonNumCore l).map fun p => (Json.num (p.1 : Int), p.2)

mutual

/-- One JSON value, recursive descent with fuel.  Any fuel of at least
the input length suffices: every recursive call first consumes at least
one character. -/
def parseJsonVal : Nat → List Char → Option (Json × List Char)
  | 0, _ => none
  | fuel + 1, l =>
    match skipWs l with
    | [] => none
    | c :: t =>
      if c = '\x7b' then
        match skipWs t with
        | c2 :: t2 =>
          if c2 = '\x7d' then some (.obj [], t2) else parseObjItems fuel (c2 :: t2) []
        | [] => none
      else if c = '[' then
        match skipWs t with
        | c2 :: t2 =>
          if c2 = ']' then some (.arr [], t2) else parseArrItems fuel (c2 :: t2) []
        | [] => none
      else if c = '"' then
        (parseJsonString fuel t).map fun p => (.str ⟨p.1⟩, p.2)
      else if c = 't' then
        if ['r', 'u', 'e'].isPrefixOf t then some (.bool true, t.drop 3) else none
      else if c = 'f' then
        if ['a', 'l', 's', 'e'].isPrefixOf t then some (.bool false, t.drop 4) else none
      else if c = 'n' then
        if ['u', 'l', 'l'].isPrefixOf t then some (.null, t.drop 3) else none
      else parseJsonNum (c :: t)

/-- Members of a JSON object, after the opening brace (first member not
yet read); `acc` holds the members already read. -/
def parseObjItems : Nat → List Char → List (String × Json) → Option (Json × List Char)
  | 0, _, _ => none
  | fuel + 1, l, acc =>
    match skipWs l with
    | [] => none
    | c :: t =>
      if c = '"' then
        match parseJsonString fuel t with
        | none => none
        | some (ks, t2) =>
          match skipWs t2 with
          | [] => none
          | c3 :: t3 =>
            if c3 = ':' then
              match parseJsonVal fuel t3 with
              | none => none
              | some (v, t4) =>
                match skipWs t4 with
                | [] => none
                | c5 :: t5 =>
                  if c5 = ',' then parseObjItems fuel t5 (acc ++ [(⟨ks⟩, v)])
                  else if c5 = '\x7d' then some (.obj (acc ++ [(⟨ks⟩, v)]), t5)
                  else none
            else none
      else none

/-- Elements of a JSON array, after the opening bracket (first element
not yet read); `acc` holds the elements already read. -/
def parseArrItems : Nat → List Char → List Json → Option (Json × List Char)
  | 0, _, _ => none
  | fuel + 1, l, acc =>
    match parseJsonVal fuel l with
    | none => none
    | some (v, t) =>
      match skipWs t with
      | [] => none
      | c :: t2 =>
        if c = ',' then parseArrItems fuel t2 (acc ++ [v])
        else if c = ']' then some (.arr (acc ++ [v]), t2)
        else none

end

/-- Model of Python `json.loads`: parse one JSON document, requiring
that only whitespace remain afterwards; `none` models the raised
`json.JSONDecodeError`. -/
def json_loads (s : String) : Option Json :=
  match parseJsonVal (s.toList.length + 1) s.toList with
  | some (j, rest) => if (skipWs rest).isEmpty then some j else none
  | none => none

/-- Result of the Vision OCR `document_text_detection` call:
`errorMessage` models `response.error.message` (empty string when there
is no error) and `fullText` models the `text` of the full text
annotation of the response. -/
structure VisionResp where
  errorMessage : String
  fullText : String

/-- An HTTP response from the text-generation service, as seen through
the `requests` client: `status_code` and the body `text`. -/
structure HttpResp where
  status_code : Nat
  text : String
deriving DecidableEq

/-- An exception raised by the identity provider's `create_user`:
`code` is `some c` when the exception object has a `code` attribute. -/
structure AuthError where
  code : Option String
deriving DecidableEq

/-- The external collaborators, modelled as pure oracles: `post p` is
the HTTP response of the generation service to the request whose prompt
text is `p`; `vision` is the OCR call on the file bytes; `docx` is the
docx library returning the paragraph texts (or the message of a raised
parse exception); `createUser e p` is the identity provider's account
creation, returning a uid or a raised provider exception. -/
structure Env where
  post : String → HttpResp
  vision : List Nat → VisionResp
  docx : List Nat → Except String (List String)
  createUser : Json → Json → Except AuthError String

/-- An uploaded multipart file: `filename`, raw `content` bytes and the
declared `mimetype`. -/
structure UploadedFile where
  filename : String
  content : List Nat
  mimetype : String

/-- `get_text_from_file(file_content, mime_type)` from `app.py`:
empty-file check, then media-type dispatch to the docx parser, the
Vision OCR call, or UTF-8 decoding; `Except.error` models a raised
exception carrying `str(e)`. -/
def get_text_from_file (env : Env) (file_content : List Nat) (mime_type : String) :
    Except String String :=
  if file_content.isEmpty then .error "The uploaded file is empty."
  else if strContains mime_type "wordprocessingml.document" then
    match env.docx file_content with
    | .ok paras => .ok (String.intercalate "\n" paras)
    | .error e => .error ("Error reading .docx file: " ++ e)
  else if strStartsWith mime_type "application/pdf" || strStartsWith mime_type "image/" then
    let response := env.vision file_content
    if !response.errorMessage.isEmpty then .error ("Vision AI Error: " ++ response.errorMessage)
    else .ok response.fullText
  else if strStartsWith mime_type "text/" then
    match decodeUtf8 file_content with
    | some s => .ok s
    | none => .error "Could not read text file."
  else .error ("Unsupported file type: " ++ mime_type ++ ".")

/-- Chained subscripts
`response_json['candidates'][0]['content']['parts'][0]['text']` from
`call_gemini_api`; `none` models the raised `KeyError`/`IndexError`/
`TypeError` when a level is missing or has the wrong shape. -/
def firstCandidateText (response_json : Json) : Option String := do
  let cands ← response_json.get "candidates"
  let c0 ← cands.idx 0
  let content ← c0.get "content"
  let parts ← content.get "parts"
  let p0 ← parts.idx 0
  let t ← p0.get "text"
  t.asStr

/-- Truthiness of `d.get(k)` where a missing key gives Python `None`. -/
def optTruthy : Option Json → Bool
  | some j => j.truthy
  | none => false

/-- Lines 92–97 of `call_gemini_api`: inspect the HTTP response —
non-200 status raises with the status code and body, then the body is
parsed as JSON, a missing/falsy `candidates` raises the blocked-prompt
message, and otherwise the first candidate's first part text is
returned. -/
def handle_gemini_response (response : HttpResp) : Except String String :=
  if response.status_code ≠ 200 then
    .error ("Google API Error: " ++ toString response.status_code ++ " " ++ response.text)
  else
    match json_loads response.text with
    | none => .error "Invalid JSON in response body"
    | some response_json =>
      if !optTruthy (response_json.get "candidates") then
        .error "API returned no candidates. The prompt may have been blocked."
      else
        match firstCandidateText response_json with
        | some t => .ok t
        | none => .error "Malformed candidates structure"

/-- `call_gemini_api(prompt)` from `app.py`: POST the prompt to the
generation service and interpret the HTTP response. -/
def call_gemini_api (env : Env) (prompt : String) : Except String String :=
  handle_gemini_response (env.post prompt)

/-- The analyze prompt template (line 100 of `app.py`). -/
def build_analyze_prompt (document_text : String) : String :=
  "Analyze the following legal document and provide a structured JSON analysis with keys \"fairnessScore\", \"summary\", and \"riskRadar\". The riskRadar should be an array of objects, each with \"level\", \"title\", and \"explanation\".\n\nDOCUMENT:\n"
    ++ document_text

/-- The reformat prompt template (line 110 of `app.py`). -/
def build_reformat_prompt (document_text : String) : String :=
  "Reformat the following text for maximum readability, applying proper paragraphs and structure. Do not change the wording. Return only the formatted text.\n\nDOCUMENT:\n"
    ++ document_text

/-- The simplify prompt template (line 114 of `app.py`). -/
def build_simplify_prompt (document_text : String) : String :=
  "Rewrite the following document in plain, easy-to-understand language. Maintain the original structure. Return only the simplified text.\n\nDOCUMENT:\n"
    ++ document_text

/-- The chat prompt template (line 118 of `app.py`). -/
def build_chat_prompt (document_text question : String) : String :=
  "Based ONLY on the document text provided, answer the user\x27s question concisely.\n\nDOCUMENT:\n"
    ++ document_text ++ "\n\nQUESTION:\n" ++ question

/-- Line 102 of `app.py`: remove the `` ```json `` marker, then every
remaining triple backtick, then strip surrounding whitespace. -/
def clean_response (response_text : String) : String :=
  pyStrip (pyReplace (pyReplace response_text "```json" "") "```" "")

/-- The fixed fallback analysis of line 107 of `app.py`. -/
def fallbackAnalysis : Json :=
  .obj [("fairnessScore", .num 0), ("summary", .str "Could not analyze."),
    ("riskRadar", .arr [])]

/-- Lines 102–107 of `app.py`: clean the generation response, attempt a
strict JSON parse, and on `JSONDecodeError` return the fallback. -/
def interpret (response_text : String) : Json :=
  let cleaned_text := clean_response response_text
  match json_loads cleaned_text with
  | some analysis_data => analysis_data
  | none => fallbackAnalysis

/-- `analyze_document_with_gemini(document_text)` from `app.py`: build
the analyze prompt, call the generation service, and interpret its
response (the interpretation itself never raises). -/
def analyze_document_with_gemini (env : Env) (document_text : String) :
    Except String Json :=
  match call_gemini_api env (build_analyze_prompt document_text) with
  | .error e => .error e
  | .ok response_text => .ok (interpret response_text)

/-- `reformat_document_with_gemini(document_text)` from `app.py`. -/
def reformat_document_with_gemini (env : Env) (document_text : String) :
    Except String String :=
  call_gemini_api env (build_reformat_prompt document_text)

/-- `simplify_document_with_gemini(document_text)` from `app.py`. -/
def simplify_document_with_gemini (env : Env) (document_text : String) :
    Except String String :=
  call_gemini_api env (build_simplify_prompt document_text)

/-- `answer_chat_question(document_text, question)` from `app.py`. -/
def answer_chat_question (env : Env) (document_text question : String) :
    Except String String :=
  call_gemini_api env (build_chat_prompt document_text question)

/-- Python membership `k in d` for a parsed JSON body: key lookup on a
dict, element membership on a list, substring test on a string;
`Except.error` models the `TypeError` raised on the other types. -/
def pyIn (k : String) : Json → Except String Bool
  | .obj kvs => .ok (kvs.any (fun kv => kv.1 == k))
  | .arr xs => .ok (xs.any (fun x => match x with | .str s => s == k | _ => false))
  | .str s => .ok (strContains s k)
  | _ => .error "argument is not iterable"

/-- Python subscription `d[k]` for a parsed JSON body: dict lookup
(`KeyError` on a missing key), `TypeError` otherwise. -/
def pySubscript (d : Json) (k : String) : Except String Json :=
  match d with
  | .obj _ =>
    match d.get k with
    | some v => .ok v
    | none => .error ("KeyError: " ++ k)
  | _ => .error "unsubscriptable value"

/-- Python `str()` of a JSON value, as applied by an f-string.  String,
number, boolean and `None` conversions follow Python; the rendering of
containers is a simplified stand-in (no claim embeds a container in a
prompt). -/
def pyFStr : Json → String
  | .str s => s
  | .num n => toString n
  | .bool true => "True"
  | .bool false => "False"
  | .null => "None"
  | .arr _ => "[...]"
  | .obj _ => "\x7b...\x7d"

/-- The `/analyze` handler (lines 121–133 of `app.py`).  The request's
file part is `none` when `'file' not in request.files`.  The body is
the pair (status code, JSON body). -/
def analyze_endpoint (env : Env) (file : Option UploadedFile) : Nat × Json :=
  match file with
  | none => (400, .obj [("error", .str "No file part")])
  | some file =>
    if file.filename == "" then (400, .obj [("error", .str "No file selected")])
    else
      match get_text_from_file env file.content file.mimetype with
      | .error e => (500, .obj [("error", .str e)])
      | .ok raw_text =>
        match reformat_document_with_gemini env raw_text with
        | .error e => (500, .obj [("error", .str e)])
        | .ok formatted_text =>
          match analyze_document_with_gemini env formatted_text with
          | .error e => (500, .obj [("error", .str e)])
          | .ok analysis_data =>
            (200, .obj [("analysis", analysis_data), ("fullText", .str formatted_text)])

/-- The `/simplify` handler (lines 135–144 of `app.py`).  `data` is the
parsed JSON body (`none` models `request.get_json()` returning `None`).
Any exception raised after validation is replaced by the fixed
message. -/
def simplify_endpoint (env : Env) (data : Option Json) : Nat × Json :=
  let bad := (400, Json.obj [("error", Json.str "Missing document text")])
  let failed := (500, Json.obj [("error", Json.str "Could not simplify the document.")])
  match data with
  | none => bad
  | some d =>
    if !d.truthy then bad
    else
      match pyIn "documentText" d with
      | .error _ => failed
      | .ok false => bad
      | .ok true =>
        match pySubscript d "documentText" with
        | .error _ => failed
        | .ok docText =>
          match simplify_document_with_gemini env (pyFStr docText) with
          | .error _ => failed
          | .ok simplified_text => (200, .obj [("simplifiedText", .str simplified_text)])

/-- The `/chat` handler (lines 146–156 of `app.py`): validates the
presence of `question` and then `documentText`, then answers via the
generation service; any exception raised after validation is replaced
by the fixed message. -/
def chat_endpoint (env : Env) (data : Option Json) : Nat × Json :=
  let bad := (400, Json.obj [("error", Json.str "Missing data")])
  let failed := (500, Json.obj [("error", Json.str "Could not process question.")])
  match data with
  | none => bad
  | some d =>
    if !d.truthy then bad
    else
      match pyIn "question" d with
      | .error _ => failed
      | .ok false => bad
      | .ok true =>
        match pyIn "documentText" d with
        | .error _ => failed
        | .ok false => bad
        | .ok true =>
          match pySubscript d "documentText", pySubscript d "question" with
          | .ok docText, .ok question =>
            match answer_chat_question env (pyFStr docText) (pyFStr question) with
            | .error _ => failed
            | .ok answer => (200, .obj [("answer", .str answer)])
          | _, _ => failed

/-- The `/signup` handler (lines 158–174 of `app.py`), modelled with
the stray-double-dot slip of line 166 corrected to a single
`auth.create_user` call — the source line is a Python syntax error, and
the specification (Design Notes) records the single call as the
intent.  `data.get` on a non-dict body raises `AttributeError`, caught
by the handler's generic branch; a provider exception is mapped by its
`code` attribute. -/
def signup (env : Env) (data : Option Json) : Nat × Json :=
  let generic := (400, Json.obj [("error", Json.str "An unknown error occurred.")])
  match data with
  | some (Json.obj kvs) =>
    let d := Json.obj kvs
    let email := d.get "email"
    let password := d.get "password"
    if !optTruthy email || !optTruthy password then
      (400, .obj [("error", .str "Email and password are required")])
    else
      match email, password with
      | some e, some p =>
        match env.createUser e p with
        | .ok uid => (201, .obj [("uid", .str uid)])
        | .error err =>
          let msg :=
            match err.code with
            | some c =>
              if c == "EMAIL_EXISTS" then "The email address is already in use."
              else if c == "WEAK_PASSWORD" then "Password should be at least 6 characters."
              else "An unknown error occurred."
            | none => "An unknown error occurred."
          (400, .obj [("error", .str msg)])
      | _, _ => generic
  | _ => generic

/-- A generation-service response body holding exactly one candidate
whose first part text is `t` (for `t` free of characters needing JSON
escapes). -/
def mkCandBody (t : String) : String :=
  "\x7b\"candidates\": [\x7b\"content\": \x7b\"parts\": [\x7b\"text\": \"" ++ t
    ++ "\"\x7d]\x7d\x7d]\x7d"

/-- A concrete environment used by the witnesses: OCR reads "hello",
reformatting yields "formatted hello", the analyze call returns a
non-JSON candidate, and account creation yields uid "u123"; every other
generation request gets a 503. -/
def demoEnv : Env where
  post := fun p =>
    if p == build_reformat_prompt "hello" then ⟨200, mkCandBody "formatted hello"⟩
    else if p == build_analyze_prompt "formatted hello" then ⟨200, mkCandBody "notjson"⟩
    else ⟨503, "service unavailable"⟩
  vision := fun _ => ⟨"", "hello"⟩
  docx := fun _ => .ok ["first paragraph", "second paragraph"]
  createUser := fun _ _ => .ok "u123"

/-- `demoEnv` with the account creation replaced. -/
def envWithCreate (cu : Json → Json → Except AuthError String) : Env :=
  { demoEnv with createUser := cu }

/-- A concrete uploaded file taking the OCR path in `demoEnv`. -/
def demoFile : UploadedFile :=
  { filename := "contract.pdf", content := [1, 2, 3], mimetype := "application/pdf" }

theorem isPrefixOf_append_self (xs ys : List Char) : xs.isPrefixOf (xs ++ ys) = true := by
  induction xs with
  | nil => simp [List.isPrefixOf]
  | cons a t ih => simp [List.isPrefixOf, ih]

theorem listContains_append_middle (pat pre suf : List Char) :
    listContains pat (pre ++ (pat ++ suf)) = true := by
  induction pre with
  | nil =>
    cases pat with
    | nil =>
      cases suf with
      | nil => rfl
      | cons c t => simp [listContains, List.isPrefixOf]
    | cons c t => simp [listContains, isPrefixOf_append_self]
  | cons a pre ih => simp [listContains, ih]

/-- **C1**: for every response string given to the analyze-response
interpreter, the interpreter does not throw: it returns either the
result of the strict JSON parse of the code-fence-cleaned string, or
exactly the fallback value
`{fairnessScore: 0, summary: "Could not analyze.", riskRadar: []}`
when that parse fails. -/
theorem c1_interpret_parse_or_fallback (s : String) :
    (∃ j, json_loads (clean_response s) = some j ∧ interpret s = j) ∨
      (json_loads (clean_response s) = none ∧ interpret s = fallbackAnalysis) := by
  cases h : json_loads (clean_response s) with
  | some j => exact Or.inl ⟨j, rfl, by simp [interpret, h]⟩
  | none => exact Or.inr ⟨rfl, by simp [interpret, h]⟩

/-- **C5**: for every declared media type, extraction of an empty byte
sequence fails with the empty-file extraction error, before any
media-type dispatch or external call: the result does not depend on the
media type or on any external collaborator. -/
theorem c5_extract_empty_bytes (env env2 : Env) (mime1 mime2 : String) :
    get_text_from_file env [] mime1 = .error "The uploaded file is empty." ∧
      get_text_from_file env [] mime1 = get_text_from_file env2 [] mime2 := by
  exact ⟨rfl, rfl⟩

/-- **C6**: for every non-empty byte sequence and every media type that
does not contain the word-processing-document marker and does not start
with `application/pdf`, `image/` or `text/`, extraction fails and the
error message contains the offending media-type string. -/
theorem c6_unsupported_mime (env : Env) (content : List Nat) (mime : String)
    (hne : content ≠ [])
    (h1 : strContains mime "wordprocessingml.document" = false)
    (h2 : strStartsWith mime "application/pdf" = false)
    (h3 : strStartsWith mime "image/" = false)
    (h4 : strStartsWith mime "text/" = false) :
    get_text_from_file env content mime
        = .error ("Unsupported file type: " ++ mime ++ ".") ∧
      strContains ("Unsupported file type: " ++ mime ++ ".") mime = true := by
  constructor
  · have h0 : content.isEmpty = false := by
      cases content with
      | nil => exact absurd rfl hne
      | cons a t => rfl
    simp [get_text_from_file, h0, h1, h2, h3, h4]
  · unfold strContains
    have h : ("Unsupported file type: " ++ mime ++ ".").toList
        = "Unsupported file type: ".toList ++ (mime.toList ++ ".".toList) := by
      show (("Unsupported file type: " ++ mime) ++ ".").data
        = "Unsupported file type: ".data ++ (mime.data ++ ".".data)
      rw [String.data_append, String.data_append, List.append_assoc]
    rw [h]
    exact listContains_append_middle mime.toList "Unsupported file type: ".toList ".".toList

/-- Witness for C6 at the media type `application/zip` and a one-byte
file. -/
theorem c6_unsupported_mime_witness :
    get_text_from_file demoEnv [1] "application/zip"
        = .error ("Unsupported file type: " ++ "application/zip" ++ ".") ∧
      strContains ("Unsupported file type: " ++ "application/zip" ++ ".") "application/zip"
        = true :=
  c6_unsupported_mime demoEnv [1] "application/zip" (by decide) (by decide) (by decide)
    (by decide) (by decide)

/-- **C8**: every prompt builder (analyze, reformat, simplify, chat) is
a deterministic pure function — two calls with identical input text
(and, for chat, identical question) yield identical prompt strings. -/
theorem c8_prompt_builders_deterministic (t1 t2 q1 q2 : String)
    (ht : t1 = t2) (hq : q1 = q2) :
    build_analyze_prompt t1 = build_analyze_prompt t2 ∧
      build_reformat_prompt t1 = build_reformat_prompt t2 ∧
      build_simplify_prompt t1 = build_simplify_prompt t2 ∧
      build_chat_prompt t1 q1 = build_chat_prompt t2 q2 := by
  subst ht; subst hq
  exact ⟨rfl, rfl, rfl, rfl⟩

/-- Witness for C8 at a concrete document and question. -/
theorem c8_prompt_builders_deterministic_witness :
    build_analyze_prompt "doc" = build_analyze_prompt "doc" ∧
      build_reformat_prompt "doc" = build_reformat_prompt "doc" ∧
      build_simplify_prompt "doc" = build_simplify_prompt "doc" ∧
      build_chat_prompt "doc" "why?" = build_chat_prompt "doc" "why?" :=
  c8_prompt_builders_deterministic "doc" "doc" "why?" "why?" rfl rfl


/-- **C2**: the analyze handler, on a request with a file part and a
non-empty filename, extracts the text, reformats the extracted text via
generation, analyzes the formatted (not the raw) text via generation,
and responds with the analysis under `analysis` and the formatted text
under `fullText`. -/
theorem c2_analyze_pipeline (env : Env) (f : UploadedFile)
    (hname : f.filename ≠ "")
    (raw formatted resp : String)
    (hext : get_text_from_file env f.content f.mimetype = .ok raw)
    (href : call_gemini_api env (build_reformat_prompt raw) = .ok formatted)
    (hana : call_gemini_api env (build_analyze_prompt formatted) = .ok resp) :
    analyze_endpoint env (some f)
      = (200, Json.obj [("analysis", interpret resp), ("fullText", Json.str formatted)]) := by
  have hn : (f.filename == "") = false := beq_eq_false_iff_ne.mpr hname
  simp [analyze_endpoint, hn, hext, reformat_document_with_gemini, href,
    analyze_document_with_gemini, hana]

set_option maxRecDepth 8192 in
/-- Witness for C2: in `demoEnv`, OCR extracts "hello", reformatting
yields "formatted hello", and the analyze call on the formatted text
returns "notjson". -/
theorem c2_analyze_pipeline_witness :
    analyze_endpoint demoEnv (some demoFile)
      = (200, Json.obj [("analysis", interpret "notjson"),
          ("fullText", Json.str "formatted hello")]) :=
  c2_analyze_pipeline demoEnv demoFile (by decide) "hello" "formatted hello" "notjson"
    (by rfl) (by rfl) (by rfl)

/-- **C9**: the simplify and chat handlers validate only the presence
of the required keys: a present-but-empty `documentText` (resp.
`question`) is not rejected with 400, and the handler proceeds to the
generation call with the empty string. -/
theorem c9_empty_values_pass_validation (env : Env) :
    (simplify_endpoint env (some (Json.obj [("documentText", Json.str "")]))
        = match simplify_document_with_gemini env "" with
          | .error _ =>
            (500, Json.obj [("error", Json.str "Could not simplify the document.")])
          | .ok s => (200, Json.obj [("simplifiedText", Json.str s)])) ∧
      (simplify_endpoint env (some (Json.obj [("documentText", Json.str "")]))).1 ≠ 400 ∧
      (chat_endpoint env
          (some (Json.obj [("documentText", Json.str "doc"), ("question", Json.str "")]))
        = match answer_chat_question env "doc" "" with
          | .error _ =>
            (500, Json.obj [("error", Json.str "Could not process question.")])
          | .ok a => (200, Json.obj [("answer", Json.str a)])) ∧
      (chat_endpoint env
          (some (Json.obj [("documentText", Json.str "doc"), ("question", Json.str "")]))).1
        ≠ 400 := by
  have hs : simplify_endpoint env (some (Json.obj [("documentText", Json.str "")]))
      = match simplify_document_with_gemini env "" with
        | .error _ =>
          (500, Json.obj [("error", Json.str "Could not simplify the document.")])
        | .ok s => (200, Json.obj [("simplifiedText", Json.str s)]) := rfl
  have hc : chat_endpoint env
      (some (Json.obj [("documentText", Json.str "doc"), ("question", Json.str "")]))
      = match answer_chat_question env "doc" "" with
        | .error _ =>
          (500, Json.obj [("error", Json.str "Could not process question.")])
        | .ok a => (200, Json.obj [("answer", Json.str a)]) := rfl
  refine ⟨hs, ?_, hc, ?_⟩
  · rw [hs]
    cases simplify_document_with_gemini env "" <;> simp
  · rw [hc]
    cases answer_chat_question env "doc" "" <;> simp

/-- **C10**: error-message exposure differs per endpoint — when a
post-validation stage of the analyze handler fails, the 500 body
carries the underlying exception message verbatim under `error`,
whereas every 500 of the simplify and chat handlers carries the fixed
strings "Could not simplify the document." and "Could not process
question." respectively. -/
theorem c10_error_message_exposure (env : Env) :
    (∀ f e, (f : UploadedFile).filename ≠ "" →
        get_text_from_file env f.content f.mimetype = .error e →
        analyze_endpoint env (some f) = (500, Json.obj [("error", Json.str e)])) ∧
      (∀ f raw e, f.filename ≠ "" →
        get_text_from_file env f.content f.mimetype = .ok raw →
        call_gemini_api env (build_reformat_prompt raw) = .error e →
        analyze_endpoint env (some f) = (500, Json.obj [("error", Json.str e)])) ∧
      (∀ f raw formatted e, f.filename ≠ "" →
        get_text_from_file env f.content f.mimetype = .ok raw →
        call_gemini_api env (build_reformat_prompt raw) = .ok formatted →
        call_gemini_api env (build_analyze_prompt formatted) = .error e →
        analyze_endpoint env (some f) = (500, Json.obj [("error", Json.str e)])) ∧
      (∀ data st body, simplify_endpoint env data = (st, body) → st = 500 →
        body = Json.obj [("error", Json.str "Could not simplify the document.")]) ∧
      (∀ data st body, chat_endpoint env data = (st, body) → st = 500 →
        body = Json.obj [("error", Json.str "Could not process question.")]) := by
  refine ⟨?_, ?_, ?_, ?_, ?_⟩
  · intro f e hname hext
    have hn : (f.filename == "") = false := beq_eq_false_iff_ne.mpr hname
    simp [analyze_endpoint, hn, hext]
  · intro f raw e hname hext href
    have hn : (f.filename == "") = false := beq_eq_false_iff_ne.mpr hname
    simp [analyze_endpoint, hn, hext, reformat_document_with_gemini, href]
  · intro f raw formatted e hname hext href hana
    have hn : (f.filename == "") = false := beq_eq_false_iff_ne.mpr hname
    simp [analyze_endpoint, hn, hext, reformat_document_with_gemini, href,
      analyze_document_with_gemini, hana]
  · intro data st body h h500
    simp only [simplify_endpoint] at h
    repeat' split at h
    all_goals (injection h with h1 h2; subst h1; subst h2; simp_all)
  · intro data st body h h500
    simp only [chat_endpoint] at h
    repeat' split at h
    all_goals (injection h with h1 h2; subst h1; subst h2; simp_all)

/-- Witness for C10: in `demoEnv`, an unsupported media type makes the
analyze handler return 500 with the extraction error verbatim. -/
theorem c10_error_message_exposure_witness :
    analyze_endpoint demoEnv
        (some { filename := "a.zip", content := [1], mimetype := "application/zip" })
      = (500, Json.obj [("error", Json.str "Unsupported file type: application/zip.")]) :=
  (c10_error_message_exposure demoEnv).1
    { filename := "a.zip", content := [1], mimetype := "application/zip" }
    "Unsupported file type: application/zip." (by decide) (by rfl)

/-- **C7**: the signup handler, given a body with truthy email and
password, delegates one account-creation call to the identity provider
and maps its outcome: success to 201 `{uid}`, provider code
`EMAIL_EXISTS` to 400 with the in-use message, `WEAK_PASSWORD` to 400
with the length message, any other provider error to 400 with the
generic message.  (The `signup` model corrects the Python syntax error
`auth..create_user` of source line 166 to the single `auth.create_user`
call the specification's Design Notes record as the intent.) -/
theorem c7_signup_provider_mapping (env : Env) (e p : Json)
    (he : e.truthy = true) (hp : p.truthy = true) :
    (∀ uid, env.createUser e p = .ok uid →
        signup env (some (Json.obj [("email", e), ("password", p)]))
          = (201, Json.obj [("uid", Json.str uid)])) ∧
      (env.createUser e p = .error ⟨some "EMAIL_EXISTS"⟩ →
        signup env (some (Json.obj [("email", e), ("password", p)]))
          = (400, Json.obj [("error", Json.str "The email address is already in use.")])) ∧
      (env.createUser e p = .error ⟨some "WEAK_PASSWORD"⟩ →
        signup env (some (Json.obj [("email", e), ("password", p)]))
          = (400, Json.obj [("error", Json.str "Password should be at least 6 characters.")])) ∧
      (∀ c, c ≠ "EMAIL_EXISTS" → c ≠ "WEAK_PASSWORD" →
        env.createUser e p = .error ⟨some c⟩ →
        signup env (some (Json.obj [("email", e), ("password", p)]))
          = (400, Json.obj [("error", Json.str "An unknown error occurred.")])) ∧
      (env.createUser e p = .error ⟨none⟩ →
        signup env (some (Json.obj [("email", e), ("password", p)]))
          = (400, Json.obj [("error", Json.str "An unknown error occurred.")])) := by
  refine ⟨?_, ?_, ?_, ?_, ?_⟩
  · intro uid h
    simp [signup, Json.get, optTruthy, he, hp, h]
  · intro h
    simp [signup, Json.get, optTruthy, he, hp, h]
  · intro h
    simp [signup, Json.get, optTruthy, he, hp, h]
  · intro c hc1 hc2 h
    have hb1 : (c == "EMAIL_EXISTS") = false := beq_eq_false_iff_ne.mpr hc1
    have hb2 : (c == "WEAK_PASSWORD") = false := beq_eq_false_iff_ne.mpr hc2
    simp [signup, Json.get, optTruthy, he, hp, h, hb1, hb2]
  · intro h
    simp [signup, Json.get, optTruthy, he, hp, h]

/-- Witness for C7: a provider reporting `EMAIL_EXISTS` makes the
handler answer 400 with the in-use message. -/
theorem c7_signup_provider_mapping_witness :
    signup (envWithCreate fun _ _ => .error ⟨some "EMAIL_EXISTS"⟩)
        (some (Json.obj [("email", Json.str "a@b.com"), ("password", Json.str "secret1")]))
      = (400, Json.obj [("error", Json.str "The email address is already in use.")]) :=
  (c7_signup_provider_mapping (envWithCreate fun _ _ => .error ⟨some "EMAIL_EXISTS"⟩)
    (Json.str "a@b.com") (Json.str "secret1") (by decide) (by decide)).2.1 (by rfl)

theorem truthy_candidates_of_first (j : Json) (t : String)
    (h : firstCandidateText j = some t) : optTruthy (j.get "candidates") = true := by
  unfold firstCandidateText at h
  cases hc : j.get "candidates" with
  | none => simp [hc] at h
  | some cands =>
    rw [hc] at h
    cases cands with
    | arr xs =>
      cases xs with
      | nil => simp [Json.idx] at h
      | cons a l => simp [hc, optTruthy, Json.truthy]
    | null => simp [Json.idx] at h
    | bool b => simp [Json.idx] at h
    | num n => simp [Json.idx] at h
    | str s => simp [Json.idx] at h
    | obj kvs => simp [Json.idx] at h

/-- **C3** (amended): the generation client fails on any status other
than exactly 200, with a message including the status code and response
body; on a 200 response whose body parses as JSON and whose first
candidate's first content part carries a text value, it returns that
text verbatim; and on a 200 response whose body parses but whose
`candidates` entry is missing or falsy it fails with the no-candidates
message. -/
theorem c3_generation_response (resp : HttpResp) :
    (resp.status_code ≠ 200 →
        handle_gemini_response resp
          = .error ("Google API Error: " ++ toString resp.status_code ++ " " ++ resp.text)) ∧
      (∀ j t, resp.status_code = 200 → json_loads resp.text = some j →
        firstCandidateText j = some t →
        handle_gemini_response resp = .ok t) ∧
      (∀ j, resp.status_code = 200 → json_loads resp.text = some j →
        optTruthy (j.get "candidates") = false →
        handle_gemini_response resp
          = .error "API returned no candidates. The prompt may have been blocked.") := by
  refine ⟨?_, ?_, ?_⟩
  · intro h
    simp [handle_gemini_response, h]
  · intro j t h200 hj hf
    have hc := truthy_candidates_of_first j t hf
    simp [handle_gemini_response, h200, hj, hc, hf]
  · intro j h200 hj hc
    simp [handle_gemini_response, h200, hj, hc]

set_option maxRecDepth 8192 in
/-- Witness for C3 at a status-200 response with one candidate whose
text is "hi". -/
theorem c3_generation_response_witness :
    handle_gemini_response ⟨200, mkCandBody "hi"⟩ = .ok "hi" :=
  (c3_generation_response ⟨200, mkCandBody "hi"⟩).2.1
    (Json.obj [("candidates", Json.arr [Json.obj [("content", Json.obj [("parts",
        Json.arr [Json.obj [("text", Json.str "hi")]])])]])])
    "hi" rfl (by rfl) (by rfl)

set_option maxRecDepth 8192 in
/-- Counterexample to C3 as stated: a 201 response — a 2xx status —
carrying one well-formed candidate is not returned verbatim; the code
compares the status against exactly 200 and raises the status error. -/
theorem c3_counterexample :
    handle_gemini_response ⟨201, mkCandBody "hi"⟩
        = .error ("Google API Error: 201 " ++ mkCandBody "hi") ∧
      handle_gemini_response ⟨201, mkCandBody "hi"⟩ ≠ .ok "hi" := by
  constructor
  · rfl
  · have h : handle_gemini_response ⟨201, mkCandBody "hi"⟩
        = .error ("Google API Error: 201 " ++ mkCandBody "hi") := rfl
    rw [h]
    simp

theorem isPrefixOf_length_le (xs ys : List Char) (h : xs.isPrefixOf ys = true) :
    xs.length ≤ ys.length := by
  induction xs generalizing ys with
  | nil => simp
  | cons a t ih =>
    cases ys with
    | nil => simp [List.isPrefixOf] at h
    | cons b u =>
      simp only [List.isPrefixOf, Bool.and_eq_true] at h
      simpa using ih u h.2

theorem eq_append_of_isPrefixOf (xs ys : List Char) (h : xs.isPrefixOf ys = true) :
    ∃ rest, ys = xs ++ rest := by
  induction xs generalizing ys with
  | nil => exact ⟨ys, rfl⟩
  | cons a t ih =>
    cases ys with
    | nil => simp [List.isPrefixOf] at h
    | cons b u =>
      simp only [List.isPrefixOf, Bool.and_eq_true] at h
      obtain ⟨rest, hr⟩ := ih u h.2
      exact ⟨rest, by rw [hr, List.cons_append, eq_of_beq h.1]⟩

theorem listContains_iff (pat s : List Char) :
    listContains pat s = true ↔ ∃ a b, s = a ++ pat ++ b := by
  induction s with
  | nil =>
    constructor
    · intro h
      cases pat with
      | nil => exact ⟨[], [], rfl⟩
      | cons c t => simp [listContains] at h
    · rintro ⟨a, b, hab⟩
      have : a = [] ∧ pat = [] ∧ b = [] := by
        constructor
        · cases a with
          | nil => rfl
          | cons x y => simp at hab
        · constructor
          · cases a <;> cases pat <;> simp_all
          · cases a <;> cases pat <;> cases b <;> simp_all
      simp [this.2.1, listContains]
  | cons c t ih =>
    constructor
    · intro h
      simp only [listContains, Bool.or_eq_true] at h
      cases h with
      | inl hp =>
        obtain ⟨rest, hr⟩ := eq_append_of_isPrefixOf pat (c :: t) hp
        exact ⟨[], rest, by simpa using hr⟩
      | inr hc =>
        obtain ⟨a, b, hab⟩ := ih.mp hc
        exact ⟨c :: a, b, by simp [hab]⟩
    · rintro ⟨a, b, hab⟩
      simp only [listContains, Bool.or_eq_true]
      cases a with
      | nil =>
        left
        simp only [List.nil_append] at hab
        rw [hab]
        exact isPrefixOf_append_self pat b
      | cons x y =>
        right
        simp only [List.cons_append, List.cons.injEq] at hab
        exact ih.mpr ⟨y, b, hab.2⟩

theorem stripList_sub (u : List Char) : ∃ a b, u = a ++ stripList u ++ b := by
  refine ⟨u.takeWhile isPyWs, ((u.dropWhile isPyWs).reverse.takeWhile isPyWs).reverse, ?_⟩
  unfold stripList
  conv_lhs => rw [← List.takeWhile_append_dropWhile isPyWs u]
  rw [List.append_assoc]
  congr 1
  conv_lhs => rw [← List.reverse_reverse (u.dropWhile isPyWs),
    ← List.takeWhile_append_dropWhile isPyWs (u.dropWhile isPyWs).reverse]
  rw [List.reverse_append]

theorem listContains_of_middle (pat a v b : List Char)
    (h : listContains pat v = true) : listContains pat (a ++ v ++ b) = true := by
  obtain ⟨x, y, hxy⟩ := (listContains_iff pat v).mp h
  refine (listContains_iff pat (a ++ v ++ b)).mpr ⟨a ++ x, y ++ b, ?_⟩
  rw [hxy]
  simp [List.append_assoc]

theorem listContains_false_stripList (pat u : List Char)
    (h : listContains pat u = false) : listContains pat (stripList u) = false := by
  obtain ⟨a, b, hab⟩ := stripList_sub u
  cases hs : listContains pat (stripList u) with
  | false => rfl
  | true =>
    have := listContains_of_middle pat a (stripList u) b hs
    rw [← hab] at this
    rw [this] at h
    exact Bool.noConfusion h

/-- The code-fence marker as a character list. -/
def fenceChars : List Char := ['`', '`', '`']

theorem replList_pos (pat rep : List Char) (fuel : Nat) (s : List Char)
    (h : (!pat.isEmpty && pat.isPrefixOf s) = true) :
    replList pat rep (fuel + 1) s = rep ++ replList pat rep fuel (s.drop pat.length) := by
  simp only [replList]
  rw [if_pos h]

theorem replList_neg_cons (pat rep : List Char) (fuel : Nat) (c : Char) (t : List Char)
    (h : (!pat.isEmpty && pat.isPrefixOf (c :: t)) = false) :
    replList pat rep (fuel + 1) (c :: t) = c :: replList pat rep fuel t := by
  simp only [replList]
  rw [if_neg (by rw [h]; exact Bool.false_ne_true)]

theorem replList_succ_nil (pat rep : List Char) (fuel : Nat) :
    replList pat rep (fuel + 1) [] = [] := by
  simp only [replList]
  rw [if_neg]
  cases pat with
  | nil => simp
  | cons c t => simp [List.isPrefixOf]

/-- Length of the leading backtick run of a character list. -/
def lbq (u : List Char) : Nat :=
  (u.takeWhile (fun c => c == '`')).length

theorem lbq_cons_bq (u : List Char) : lbq ('`' :: u) = 1 + lbq u := by
  simp [lbq, List.takeWhile]
  omega

theorem lbq_cons_ne (c : Char) (u : List Char) (hc : ¬c = '`') : lbq (c :: u) = 0 := by
  have hb : (c == '`') = false := beq_eq_false_iff_ne.mpr hc
  simp [lbq, List.takeWhile, hb]

theorem bq2_prefix_lbq (u : List Char) (h : (['`', '`'] : List Char).isPrefixOf u = true) :
    2 ≤ lbq u := by
  obtain ⟨rest, hr⟩ := eq_append_of_isPrefixOf _ u h
  subst hr
  rw [show ((['`', '`'] : List Char) ++ rest) = '`' :: '`' :: rest from rfl,
    lbq_cons_bq, lbq_cons_bq]
  omega

theorem lbq_le_one (u : List Char) (h : (['`', '`'] : List Char).isPrefixOf u = false) :
    lbq u ≤ 1 := by
  cases u with
  | nil => simp [lbq]
  | cons c t =>
    by_cases hc : c = '`'
    · subst hc
      cases t with
      | nil => simp [lbq_cons_bq, lbq]
      | cons d t2 =>
        by_cases hd : d = '`'
        · subst hd
          rw [show (['`', '`'] : List Char).isPrefixOf ('`' :: '`' :: t2)
              = (('`' == '`') && (('`' == '`') && (([] : List Char).isPrefixOf t2))) from rfl]
            at h
          simp at h
        · rw [lbq_cons_bq, lbq_cons_ne d t2 hd]
    · rw [lbq_cons_ne c t hc]
      omega

theorem bq3_lbq_ge (s : List Char) (h : fenceChars.isPrefixOf s = true) : 3 ≤ lbq s := by
  obtain ⟨rest, hr⟩ := eq_append_of_isPrefixOf _ s h
  subst hr
  rw [show (fenceChars ++ rest) = '`' :: '`' :: '`' :: rest from rfl,
    lbq_cons_bq, lbq_cons_bq, lbq_cons_bq]
  omega

/-- Core invariant of the second `replace` of line 102: replacing every
non-overlapping occurrence of three backticks by the empty string
leaves no three consecutive backticks, and the leading backtick run of
the result is at most two and no longer than the input's. -/
theorem replBq3_invariant (fuel : Nat) :
    ∀ s : List Char, s.length ≤ fuel →
      listContains fenceChars (replList fenceChars [] fuel s) = false ∧
        lbq (replList fenceChars [] fuel s) ≤ 2 ∧
        lbq (replList fenceChars [] fuel s) ≤ lbq s := by
  induction fuel with
  | zero =>
    intro s hs
    have hnil : s = [] := List.length_eq_zero.mp (Nat.le_zero.mp hs)
    subst hnil
    exact ⟨rfl, by simp [replList, lbq], by simp [replList, lbq]⟩
  | succ fuel ih =>
    intro s hs
    by_cases hpre : fenceChars.isPrefixOf s = true
    · have hcond : (!fenceChars.isEmpty && fenceChars.isPrefixOf s) = true := by
        rw [hpre]; rfl
      have hstep : replList fenceChars [] (fuel + 1) s
          = replList fenceChars [] fuel (s.drop 3) := by
        rw [replList_pos fenceChars [] fuel s hcond, List.nil_append]
        rfl
      have h3 : 3 ≤ s.length := by
        have := isPrefixOf_length_le fenceChars s hpre
        simpa [fenceChars] using this
      have hlen : (s.drop 3).length ≤ fuel := by
        rw [List.length_drop]
        omega
      obtain ⟨n1, n2, n3⟩ := ih (s.drop 3) hlen
      have hlb : 3 ≤ lbq s := bq3_lbq_ge s hpre
      rw [hstep]
      exact ⟨n1, n2, by omega⟩
    · have hpre' : fenceChars.isPrefixOf s = false := by
        cases h : fenceChars.isPrefixOf s with
        | false => rfl
        | true => exact absurd h hpre
      cases s with
      | nil =>
        rw [replList_succ_nil]
        exact ⟨rfl, by simp [lbq], by simp [lbq]⟩
      | cons c t =>
        have hcond : (!fenceChars.isEmpty && fenceChars.isPrefixOf (c :: t)) = false := by
          rw [hpre']
          rfl
        have hstep : replList fenceChars [] (fuel + 1) (c :: t)
            = c :: replList fenceChars [] fuel t :=
          replList_neg_cons fenceChars [] fuel c t hcond
        have hlt : t.length ≤ fuel := by
          simp only [List.length_cons] at hs
          omega
        obtain ⟨n1, n2, n3⟩ := ih t hlt
        rw [hstep]
        by_cases hc : c = '`'
        · subst hc
          have hbq2 : (['`', '`'] : List Char).isPrefixOf t = false := by
            rw [show fenceChars.isPrefixOf ('`' :: t)
                = (('`' == '`') && (['`', '`'] : List Char).isPrefixOf t) from rfl,
              show ('`' == '`') = true from rfl, Bool.true_and] at hpre'
            exact hpre'
          have hlb1 : lbq t ≤ 1 := lbq_le_one t hbq2
          have hout2 : (['`', '`'] : List Char).isPrefixOf
              (replList fenceChars [] fuel t) = false := by
            cases h2 : (['`', '`'] : List Char).isPrefixOf (replList fenceChars [] fuel t) with
            | false => rfl
            | true =>
              have := bq2_prefix_lbq _ h2
              omega
          refine ⟨?_, ?_, ?_⟩
          · rw [show listContains fenceChars ('`' :: replList fenceChars [] fuel t)
                = (fenceChars.isPrefixOf ('`' :: replList fenceChars [] fuel t)
                    || listContains fenceChars (replList fenceChars [] fuel t)) from rfl,
              n1, Bool.or_false,
              show fenceChars.isPrefixOf ('`' :: replList fenceChars [] fuel t)
                = (('`' == '`') && (['`', '`'] : List Char).isPrefixOf
                    (replList fenceChars [] fuel t)) from rfl,
              show ('`' == '`') = true from rfl, Bool.true_and]
            exact hout2
          · rw [lbq_cons_bq]
            omega
          · rw [lbq_cons_bq, lbq_cons_bq]
            omega
        · have hbc : ('`' == c) = false := by
            cases hb : ('`' == c) with
            | false => rfl
            | true => exact absurd (eq_of_beq hb).symm hc
          refine ⟨?_, ?_, ?_⟩
          · rw [show listContains fenceChars (c :: replList fenceChars [] fuel t)
                = (fenceChars.isPrefixOf (c :: replList fenceChars [] fuel t)
                    || listContains fenceChars (replList fenceChars [] fuel t)) from rfl,
              n1, Bool.or_false,
              show fenceChars.isPrefixOf (c :: replList fenceChars [] fuel t)
                = (('`' == c) && (['`', '`'] : List Char).isPrefixOf
                    (replList fenceChars [] fuel t)) from rfl,
              hbc, Bool.false_and]
          · rw [lbq_cons_ne c _ hc]
            omega
          · rw [lbq_cons_ne c _ hc]
            omega

/-- **C4** (amended): the cleaning step of the analyze-response
interpreter removes the code-fence markers wherever they occur in the
response, not only as leading or trailing markup — after cleaning, no
triple-backtick sequence remains anywhere in the string. -/
theorem c4_clean_removes_all_fences (s : String) :
    strContains (clean_response s) "```" = false := by
  show listContains fenceChars
    (stripList (replList fenceChars []
      ((pyReplace s "```json" "").toList.length + 1) (pyReplace s "```json" "").toList))
    = false
  exact listContains_false_stripList fenceChars _
    ((replBq3_invariant ((pyReplace s "```json" "").toList.length + 1)
      (pyReplace s "```json" "").toList (by omega)).1)

/-- Counterexample to C4 as stated: on a response with no leading or
trailing code-fence markup, a triple backtick inside a JSON string
value is removed as well — the interior is changed. -/
theorem c4_counterexample :
    clean_response "\x7b\"summary\": \"a```b\"\x7d" = "\x7b\"summary\": \"ab\"\x7d" ∧
      strStartsWith "\x7b\"summary\": \"a```b\"\x7d" "```" = false ∧
      strContains "\x7b\"summary\": \"a```b\"\x7d" "```" = true ∧
      clean_response "\x7b\"summary\": \"a```b\"\x7d" ≠ "\x7b\"summary\": \"a```b\"\x7d" := by
  refine ⟨rfl, rfl, rfl, by decide⟩
